import Mathlib

/-!
Verification of the POS frontend transaction engine: cart state machine,
pricing/tax computation, payment validation, transaction recording and the
persistence round trip.  Numbers are modelled as rationals (`ℚ`), JavaScript
`Math.round` as floor of `x + 1/2` (nearest integer, ties toward +∞), and
nondeterministic platform inputs (`Date.now()`, `Math.random()`) as explicit
parameters.
-/

namespace POS

/-- JavaScript `Math.round` on rationals: nearest integer, ties toward +∞. -/
def jsRound (x : ℚ) : ℤ := Int.floor (x + 1 / 2)

/-- Rounding to the 2-decimal minor unit: `Math.round(x * 100) / 100`. -/
def round2 (x : ℚ) : ℚ := (jsRound (x * 100) : ℚ) / 100

/-- `calculateTax(subtotal, taxRate)` from the utils module:
`Math.round((subtotal * taxRate) * 100) / 100`. -/
def calculateTax (subtotal taxRate : ℚ) : ℚ := round2 (subtotal * taxRate)

/-- `calculateTotal(subtotal, tax)` as documented in the repository's API
reference: `Math.round((subtotal + tax) * 100) / 100`. -/
def calculateTotal (subtotal tax : ℚ) : ℚ := round2 (subtotal + tax)

/-- The `Product` fields the core reads (`src/types`, used by `addItem`). -/
structure Product where
  id : String
  name : String
  price : ℚ
  stock : ℤ
  isActive : Bool
  image : Option String
deriving DecidableEq, Repr

/-- `CartItem` from `src/types`: one cart line. -/
structure CartItem where
  id : String
  productId : String
  name : String
  price : ℚ
  quantity : ℤ
  image : Option String
deriving DecidableEq, Repr

/-- `addItem` from `src/stores/cart.ts`: if a line for `product.id` exists,
increment its quantity, else append a fresh line with quantity 1.  The
generated line id (`cart-${Date.now()}-${Math.random()}`) is the explicit
parameter `newId`. -/
def addItem (items : List CartItem) (product : Product) (newId : String) :
    List CartItem :=
  if (items.find? (fun item => item.productId == product.id)).isSome then
    items.map (fun item =>
      if item.productId == product.id then
        { item with quantity := item.quantity + 1 }
      else item)
  else
    items ++ [{ id := newId, productId := product.id, name := product.name,
                price := product.price, quantity := 1, image := product.image }]

/-- `removeItem` from `src/stores/cart.ts`. -/
def removeItem (items : List CartItem) (productId : String) : List CartItem :=
  items.filter (fun item => item.productId != productId)

/-- `updateQuantity` from `src/stores/cart.ts`: a non-positive quantity
removes the line, otherwise the line's quantity is set to the given value. -/
def updateQuantity (items : List CartItem) (productId : String) (quantity : ℤ) :
    List CartItem :=
  if quantity ≤ 0 then removeItem items productId
  else
    items.map (fun item =>
      if item.productId == productId then { item with quantity := quantity }
      else item)

/-- `clearCart` from `src/stores/cart.ts`. -/
def clearCart : List CartItem := []

/-- `getSubtotal` from `src/stores/cart.ts`:
`items.reduce((total, item) => total + item.price * item.quantity, 0)`. -/
def getSubtotal (items : List CartItem) : ℚ :=
  items.foldl (fun total item => total + item.price * (item.quantity : ℚ)) 0

/-- `getTax` from `src/stores/cart.ts`: `calculateTax(getSubtotal(), taxRate)`. -/
def getTax (items : List CartItem) (taxRate : ℚ) : ℚ :=
  calculateTax (getSubtotal items) taxRate

/-- `getTotal` from `src/stores/cart.ts`: returns `subtotal + tax`
(no further rounding is applied in the source). -/
def getTotal (items : List CartItem) (taxRate : ℚ) : ℚ :=
  getSubtotal items + getTax items taxRate

/-- One user-level cart operation, with the nondeterministic fresh line id
for `addItem` made explicit. -/
inductive CartOp where
  | add (product : Product) (newId : String)
  | remove (productId : String)
  | update (productId : String) (quantity : ℤ)
deriving Repr

/-- Apply one cart operation. -/
def applyOp (items : List CartItem) : CartOp → List CartItem
  | .add product newId => addItem items product newId
  | .remove productId => removeItem items productId
  | .update productId quantity => updateQuantity items productId quantity

/-- Run a sequence of cart operations beginning from the empty cart. -/
def runOps (ops : List CartOp) : List CartItem := ops.foldl applyOp []

/-- Cart well-formedness: no two lines share a `productId`, and every
line's quantity is at least 1. -/
def CartWF (items : List CartItem) : Prop :=
  (items.map (·.productId)).Nodup ∧ ∀ item ∈ items, 1 ≤ item.quantity

theorem cartWF_nil : CartWF [] := by
  constructor
  · simp
  · intro item h
    simp at h

theorem map_productId_map_of_preserve (items : List CartItem)
    (f : CartItem → CartItem) (hf : ∀ item, (f item).productId = item.productId) :
    (items.map f).map (·.productId) = items.map (·.productId) := by
  rw [List.map_map]
  exact List.map_congr_left (fun item _ => hf item)

theorem cartWF_addItem (items : List CartItem) (product : Product)
    (newId : String) (h : CartWF items) : CartWF (addItem items product newId) := by
  obtain ⟨hnodup, hqty⟩ := h
  unfold addItem
  by_cases hfind : (items.find? (fun item => item.productId == product.id)).isSome
  · rw [if_pos hfind]
    constructor
    · rw [map_productId_map_of_preserve]
      · exact hnodup
      · intro item
        by_cases hp : item.productId == product.id <;> simp [hp]
    · intro item hmem
      rw [List.mem_map] at hmem
      obtain ⟨item₀, hmem₀, heq⟩ := hmem
      have h₀ := hqty item₀ hmem₀
      by_cases hp : item₀.productId == product.id
      · rw [if_pos hp] at heq
        subst heq
        simp only
        omega
      · rw [if_neg hp] at heq
        subst heq
        exact h₀
  · rw [if_neg hfind]
    have hnone : items.find? (fun item => item.productId == product.id) = none :=
      Option.not_isSome_iff_eq_none.mp hfind
    have habsent : ∀ item ∈ items, ¬(item.productId = product.id) := by
      intro item hmem heq
      have := List.find?_eq_none.mp hnone item hmem
      simp [heq] at this
    constructor
    · rw [List.map_append]
      rw [List.nodup_append]
      refine ⟨hnodup, List.nodup_singleton _, ?_⟩
      intro x hx hx'
      simp at hx'
      rw [List.mem_map] at hx
      obtain ⟨item, hmem, hpid⟩ := hx
      exact habsent item hmem (hpid.trans hx')
    · intro item hmem
      rw [List.mem_append] at hmem
      rcases hmem with hmem | hmem
      · exact hqty item hmem
      · simp at hmem
        subst hmem
        norm_num

theorem cartWF_removeItem (items : List CartItem) (productId : String)
    (h : CartWF items) : CartWF (removeItem items productId) := by
  obtain ⟨hnodup, hqty⟩ := h
  constructor
  · exact ((List.filter_sublist items).map (·.productId)).nodup hnodup
  · intro item hmem
    exact hqty item (List.mem_of_mem_filter hmem)

theorem cartWF_updateQuantity (items : List CartItem) (productId : String)
    (quantity : ℤ) (h : CartWF items) :
    CartWF (updateQuantity items productId quantity) := by
  unfold updateQuantity
  by_cases hq : quantity ≤ 0
  · rw [if_pos hq]
    exact cartWF_removeItem items productId h
  · rw [if_neg hq]
    obtain ⟨hnodup, hqty⟩ := h
    constructor
    · rw [map_productId_map_of_preserve]
      · exact hnodup
      · intro item
        by_cases hp : item.productId == productId <;> simp [hp]
    · intro item hmem
      rw [List.mem_map] at hmem
      obtain ⟨item₀, hmem₀, heq⟩ := hmem
      by_cases hp : item₀.productId == productId
      · rw [if_pos hp] at heq
        subst heq
        simp only
        omega
      · rw [if_neg hp] at heq
        subst heq
        exact hqty item₀ hmem₀

theorem cartWF_applyOp (items : List CartItem) (op : CartOp) (h : CartWF items) :
    CartWF (applyOp items op) := by
  cases op with
  | add product newId => exact cartWF_addItem items product newId h
  | remove productId => exact cartWF_removeItem items productId h
  | update productId quantity => exact cartWF_updateQuantity items productId quantity h

theorem cartWF_foldl (ops : List CartOp) :
    ∀ items, CartWF items → CartWF (ops.foldl applyOp items) := by
  induction ops with
  | nil => intro items h; exact h
  | cons op rest ih =>
      intro items h
      exact ih (applyOp items op) (cartWF_applyOp items op h)

/-- C1: every sequence of addItem/removeItem/updateQuantity operations from
the empty cart yields a cart with no duplicate productIds in which every
line has quantity at least 1. -/
theorem cart_invariant_all_op_sequences (ops : List CartOp) : CartWF (runOps ops) :=
  cartWF_foldl ops [] cartWF_nil

/-- `PaymentMethod` from `src/types`. -/
inductive PaymentMethod where
  | cash
  | card
  | digitalWallet
deriving DecidableEq, Repr

/-- The `User` fields from `src/types` used by the commit path. -/
structure User where
  id : String
  username : String
  name : String
  role : String
  isActive : Bool
  createdAt : ℤ
deriving DecidableEq, Repr

/-- `Transaction` from `src/types`; `timestamp` is the commit instant in
epoch milliseconds (a `Date` value). -/
structure Transaction where
  id : String
  items : List CartItem
  subtotal : ℚ
  tax : ℚ
  total : ℚ
  paymentMethod : PaymentMethod
  amountPaid : ℚ
  change : ℚ
  cashierId : String
  cashierName : String
  timestamp : ℤ
  receiptNumber : String
deriving DecidableEq, Repr

/-- Last `n` characters of a string, the JS `s.slice(-n)` for `n ≤ s.length`. -/
def sliceLast (s : String) (n : Nat) : String :=
  ⟨(s.data.reverse.take n).reverse⟩

/-- `generateReceiptNumber` from the utils module:
`RCP-` + last six characters of `Date.now().toString()` + `-` + a random
4-character uppercase base-36 string.  `now` is the clock reading and
`rand` the random component, both explicit parameters. -/
def generateReceiptNumber (now : ℤ) (rand : String) : String :=
  "RCP-" ++ sliceLast (toString now) 6 ++ "-" ++ rand

/-- The object literal passed to `addTransaction` by
`PaymentModal.handlePayment` (a `Transaction` minus the generated
`id`/`timestamp`/`receiptNumber`). -/
structure TransactionData where
  items : List CartItem
  subtotal : ℚ
  tax : ℚ
  total : ℚ
  paymentMethod : PaymentMethod
  amountPaid : ℚ
  change : ℚ
  cashierId : String
  cashierName : String
deriving DecidableEq, Repr

/-- `addTransaction` from `src/stores/transaction.ts`: completes the record
with a generated id (`generateId()`, passed as `newId`), the commit instant
`new Date()` (passed as `now`) and `generateReceiptNumber()` (random part
passed as `rand`), and prepends it to the log. -/
def addTransaction (transactions : List Transaction) (data : TransactionData)
    (newId : String) (now : ℤ) (rand : String) : List Transaction :=
  { id := newId
    items := data.items
    subtotal := data.subtotal
    tax := data.tax
    total := data.total
    paymentMethod := data.paymentMethod
    amountPaid := data.amountPaid
    change := data.change
    cashierId := data.cashierId
    cashierName := data.cashierName
    timestamp := now
    receiptNumber := generateReceiptNumber now rand } :: transactions

/-- `getTransactionsByDate` from `src/stores/transaction.ts`: keeps the
transactions with `startDate <= timestamp <= endDate` (dates compare by
their epoch-millisecond value). -/
def getTransactionsByDate (transactions : List Transaction)
    (startDate endDate : ℤ) : List Transaction :=
  transactions.filter (fun tx =>
    decide (startDate ≤ tx.timestamp) && decide (tx.timestamp ≤ endDate))

/-- `getTransaction` from `src/stores/transaction.ts`. -/
def getTransaction (transactions : List Transaction) (id : String) :
    Option Transaction :=
  transactions.find? (fun tx => tx.id == id)

/-- `canProcessPayment` from `PaymentModal`: for cash the parsed tender
(`parseFloat(amountPaid)`, `none` for NaN) must reach the total; card and
digital-wallet payments are always accepted by this core. -/
def canProcessPayment (method : PaymentMethod) (tendered : Option ℚ)
    (total : ℚ) : Bool :=
  match method with
  | .cash =>
      match tendered with
      | some amount => decide (total ≤ amount)
      | none => false
  | .card => true
  | .digitalWallet => true

/-- The `change` constant in `PaymentModal`:
`parseFloat(amountPaid) - total`, with no rounding applied. -/
def changeOf (tendered total : ℚ) : ℚ := tendered - total

/-- The change amount shown in the modal: `Math.max(0, change)`. -/
def displayedChange (tendered total : ℚ) : ℚ := max 0 (changeOf tendered total)

/-- The shortfall message amount shown when `change < 0`:
`Math.abs(change)`. -/
def shortfallShown (tendered total : ℚ) : ℚ := |changeOf tendered total|

/-- Combined session state: the cart store's items and the transaction
store's log. -/
structure PosState where
  cart : List CartItem
  transactions : List Transaction
deriving DecidableEq, Repr

/-- A cart operation only rewrites the cart store's `items`; the
transaction log is untouched (`cart.ts` never calls into the transaction
store). -/
def applyOpState (st : PosState) (op : CartOp) : PosState :=
  { st with cart := applyOp st.cart op }

/-- The full commit path: `SalesPage.handlePayment` opens the payment modal
only for a non-empty cart; `PaymentModal.handlePayment` returns early
unless `canProcessPayment` holds and a cashier is logged in; on success it
builds the transaction object (cash: `amountPaid = parseFloat(amountPaid)`,
`change = amountPaid - total`; card/digital: `amountPaid = total`,
`change = 0`), `addTransaction` prepends it, and
`SalesPage.handlePaymentComplete` clears the cart.  Returns the stored
transaction (if any) and the resulting state. -/
def commit (st : PosState) (user : Option User) (method : PaymentMethod)
    (tendered : Option ℚ) (taxRate : ℚ) (newId : String) (now : ℤ)
    (rand : String) : Option Transaction × PosState :=
  if st.cart.isEmpty then (none, st)
  else if canProcessPayment method tendered (getTotal st.cart taxRate) then
    match user with
    | none => (none, st)
    | some u =>
        let total := getTotal st.cart taxRate
        let amountPaid : ℚ :=
          match method, tendered with
          | .cash, some amount => amount
          | .cash, none => 0      -- unreachable: the cash guard needs a parsed tender
          | _, _ => total
        let change : ℚ :=
          match method, tendered with
          | .cash, some amount => changeOf amount total
          | .cash, none => 0      -- unreachable as above
          | _, _ => 0
        let data : TransactionData :=
          { items := st.cart
            subtotal := getSubtotal st.cart
            tax := getTax st.cart taxRate
            total := total
            paymentMethod := method
            amountPaid := amountPaid
            change := change
            cashierId := u.id
            cashierName := u.name }
        let log := addTransaction st.transactions data newId now rand
        (log.head?, { cart := clearCart, transactions := log })
  else (none, st)

theorem cartOps_preserve_transactions (ops : List CartOp) :
    ∀ st : PosState, (ops.foldl applyOpState st).transactions = st.transactions := by
  induction ops with
  | nil => intro st; rfl
  | cons op rest ih => intro st; exact ih (applyOpState st op)

theorem commit_inversion (st : PosState) (user : Option User)
    (method : PaymentMethod) (tendered : Option ℚ) (taxRate : ℚ)
    (newId : String) (now : ℤ) (rand : String) (tx : Transaction)
    (st' : PosState)
    (h : commit st user method tendered taxRate newId now rand = (some tx, st')) :
    st.cart ≠ [] ∧
    canProcessPayment method tendered (getTotal st.cart taxRate) = true ∧
    ∃ u, user = some u ∧
      tx.items = st.cart ∧
      tx.subtotal = getSubtotal st.cart ∧
      tx.tax = getTax st.cart taxRate ∧
      tx.total = getTotal st.cart taxRate ∧
      tx.paymentMethod = method ∧
      tx.amountPaid = (match method, tendered with
        | .cash, some amount => amount
        | .cash, none => 0
        | _, _ => getTotal st.cart taxRate) ∧
      tx.change = (match method, tendered with
        | .cash, some amount => amount - getTotal st.cart taxRate
        | .cash, none => 0
        | _, _ => 0) ∧
      tx.cashierId = u.id ∧ tx.cashierName = u.name ∧
      tx.id = newId ∧ tx.timestamp = now ∧
      tx.receiptNumber = generateReceiptNumber now rand ∧
      st' = { cart := [], transactions := tx :: st.transactions } := by
  unfold commit at h
  by_cases hempty : st.cart.isEmpty = true
  · rw [if_pos hempty] at h
    simp at h
  · rw [if_neg hempty] at h
    by_cases hcan : canProcessPayment method tendered (getTotal st.cart taxRate) = true
    · rw [if_pos hcan] at h
      cases user with
      | none => simp at h
      | some u =>
          simp only [addTransaction, List.head?, clearCart] at h
          rw [Prod.mk.injEq, Option.some.injEq] at h
          obtain ⟨htx, hst⟩ := h
          subst htx
          subst hst
          have hne : st.cart ≠ [] := by
            intro hnil
            rw [hnil] at hempty
            exact hempty rfl
          cases method with
          | cash =>
              cases tendered with
              | none => exact absurd hcan (by simp [canProcessPayment])
              | some amount =>
                  exact ⟨hne, hcan, u, rfl, rfl, rfl, rfl, rfl, rfl, rfl, rfl,
                    rfl, rfl, rfl, rfl, rfl, rfl⟩
          | card =>
              cases tendered with
              | none =>
                  exact ⟨hne, hcan, u, rfl, rfl, rfl, rfl, rfl, rfl, rfl, rfl,
                    rfl, rfl, rfl, rfl, rfl, rfl⟩
              | some amount =>
                  exact ⟨hne, hcan, u, rfl, rfl, rfl, rfl, rfl, rfl, rfl, rfl,
                    rfl, rfl, rfl, rfl, rfl, rfl⟩
          | digitalWallet =>
              cases tendered with
              | none =>
                  exact ⟨hne, hcan, u, rfl, rfl, rfl, rfl, rfl, rfl, rfl, rfl,
                    rfl, rfl, rfl, rfl, rfl, rfl⟩
              | some amount =>
                  exact ⟨hne, hcan, u, rfl, rfl, rfl, rfl, rfl, rfl, rfl, rfl,
                    rfl, rfl, rfl, rfl, rfl, rfl⟩
    · rw [if_neg hcan] at h
      simp at h

/-- C2: every committed transaction satisfies `total = subtotal + tax`;
for cash, `change = amountPaid - total` and `amountPaid ≥ total`; for card
and digital-wallet payments, `amountPaid = total` and `change = 0`. -/
theorem committed_transaction_money_invariant (st : PosState)
    (user : Option User) (method : PaymentMethod) (tendered : Option ℚ)
    (taxRate : ℚ) (newId : String) (now : ℤ) (rand : String)
    (tx : Transaction) (st' : PosState)
    (h : commit st user method tendered taxRate newId now rand = (some tx, st')) :
    tx.total = tx.subtotal + tx.tax ∧
    (tx.paymentMethod = .cash →
      tx.change = tx.amountPaid - tx.total ∧ tx.total ≤ tx.amountPaid) ∧
    (tx.paymentMethod ≠ .cash → tx.amountPaid = tx.total ∧ tx.change = 0) := by
  obtain ⟨-, hcan, u, -, -, hsub, htax, htot, hpm, hpaid, hchg, -⟩ :=
    commit_inversion st user method tendered taxRate newId now rand tx st' h
  refine ⟨?_, ?_, ?_⟩
  · rw [htot, hsub, htax]
    rfl
  · intro hcash
    rw [hpm] at hcash
    subst hcash
    cases tendered with
    | none => simp [canProcessPayment] at hcan
    | some amount =>
        simp only [canProcessPayment, decide_eq_true_eq] at hcan
        constructor
        · rw [hchg, hpaid, htot]
        · rw [hpaid, htot]
          exact hcan
  · intro hncash
    rw [hpm] at hncash
    cases method with
    | cash => exact absurd rfl hncash
    | card => exact ⟨by rw [hpaid, htot], by rw [hchg]⟩
    | digitalWallet => exact ⟨by rw [hpaid, htot], by rw [hchg]⟩

/-- A concrete catalog product used to instantiate the hypothesis-bearing
theorems. -/
def demoProduct : Product :=
  { id := "p-1", name := "Coffee - Americano", price := 7 / 2, stock := 50,
    isActive := true, image := none }

/-- A concrete cart line: the demo product at quantity 2. -/
def demoItem : CartItem :=
  { id := "cart-1", productId := "p-1", name := "Coffee - Americano",
    price := 7 / 2, quantity := 2, image := none }

/-- A concrete cashier. -/
def demoUser : User :=
  { id := "2", username := "cashier", name := "Cashier User",
    role := "cashier", isActive := true, createdAt := 0 }

/-- The commit of the demo cart: cash payment of 10.00 against the 7.56
total at an 8 percent tax rate. -/
def demoCommit : Option Transaction × PosState :=
  commit { cart := [demoItem], transactions := [] } (some demoUser) .cash
    (some 10) (8 / 100) "tx-1" 1700000000123 "AB12"

/-- The transaction the demo commit stores. -/
def demoTx : Transaction :=
  { id := "tx-1", items := [demoItem], subtotal := 7, tax := 14 / 25,
    total := 189 / 25, paymentMethod := .cash, amountPaid := 10,
    change := 61 / 25, cashierId := "2", cashierName := "Cashier User",
    timestamp := 1700000000123, receiptNumber := "RCP-000123-AB12" }

theorem demo_subtotal : getSubtotal [demoItem] = 7 := by
  norm_num [getSubtotal, demoItem]

theorem demo_tax : getTax [demoItem] (8 / 100) = 14 / 25 := by
  rw [getTax, demo_subtotal]
  simp only [calculateTax, round2, jsRound]
  norm_num

theorem demo_total : getTotal [demoItem] (8 / 100) = 189 / 25 := by
  rw [getTotal, demo_subtotal, demo_tax]
  norm_num

theorem demoCommit_eq :
    demoCommit = (some demoTx, { cart := [], transactions := [demoTx] }) := by
  unfold demoCommit commit
  simp only [demo_total]
  rw [if_neg (by decide), if_pos (by simp [canProcessPayment]; norm_num)]
  simp only [addTransaction, List.head?, clearCart, changeOf, demoTx, demoUser]
  rw [Prod.mk.injEq]
  constructor
  · rw [Option.some.injEq, Transaction.mk.injEq]
    refine ⟨rfl, rfl, demo_subtotal, demo_tax, rfl, rfl, rfl, by norm_num,
      rfl, rfl, rfl, by decide⟩
  · rw [PosState.mk.injEq]
    refine ⟨rfl, ?_⟩
    rw [List.cons.injEq]
    refine ⟨?_, rfl⟩
    rw [Transaction.mk.injEq]
    exact ⟨rfl, rfl, demo_subtotal, demo_tax, rfl, rfl, rfl, by norm_num,
      rfl, rfl, rfl, by decide⟩

theorem money_invariant_witness :
    demoTx.total = demoTx.subtotal + demoTx.tax ∧
    (demoTx.paymentMethod = .cash →
      demoTx.change = demoTx.amountPaid - demoTx.total ∧
        demoTx.total ≤ demoTx.amountPaid) ∧
    (demoTx.paymentMethod ≠ .cash →
      demoTx.amountPaid = demoTx.total ∧ demoTx.change = 0) :=
  committed_transaction_money_invariant
    { cart := [demoItem], transactions := [] } (some demoUser) .cash (some 10)
    (8 / 100) "tx-1" 1700000000123 "AB12" demoTx
    { cart := [], transactions := [demoTx] } demoCommit_eq

/-- C3: after a committed transaction the cart is empty, the log's newest
entry holds exactly the pre-commit cart lines, the previous transactions
follow unchanged and in order, and no later sequence of cart operations
changes the stored log. -/
theorem commit_snapshot_and_immutability (st : PosState) (user : Option User)
    (method : PaymentMethod) (tendered : Option ℚ) (taxRate : ℚ)
    (newId : String) (now : ℤ) (rand : String) (tx : Transaction)
    (st' : PosState)
    (h : commit st user method tendered taxRate newId now rand = (some tx, st')) :
    st'.cart = [] ∧
    st'.transactions = tx :: st.transactions ∧
    tx.items = st.cart ∧
    ∀ ops : List CartOp,
      (ops.foldl applyOpState st').transactions = st'.transactions := by
  obtain ⟨-, -, u, -, hitems, -, -, -, -, -, -, -, -, -, -, -, hst'⟩ :=
    commit_inversion st user method tendered taxRate newId now rand tx st' h
  subst hst'
  exact ⟨rfl, rfl, hitems, fun ops => cartOps_preserve_transactions ops _⟩

theorem commit_snapshot_witness :
    ({ cart := [], transactions := [demoTx] } : PosState).cart = [] ∧
    ({ cart := [], transactions := [demoTx] } : PosState).transactions =
      demoTx :: [] ∧
    demoTx.items = [demoItem] ∧
    ∀ ops : List CartOp,
      (ops.foldl applyOpState { cart := [], transactions := [demoTx] }).transactions =
        ({ cart := [], transactions := [demoTx] } : PosState).transactions :=
  commit_snapshot_and_immutability
    { cart := [demoItem], transactions := [] } (some demoUser) .cash (some 10)
    (8 / 100) "tx-1" 1700000000123 "AB12" demoTx
    { cart := [], transactions := [demoTx] } demoCommit_eq

/-- C5: a commit stores a transaction exactly when the cart is non-empty,
a cashier is present, and the payment is authorized (cash: parsed tender
at least the total; card/digital wallet: always); a rejected commit leaves
the whole state unchanged. -/
theorem commit_guard_characterization (st : PosState) (user : Option User)
    (method : PaymentMethod) (tendered : Option ℚ) (taxRate : ℚ)
    (newId : String) (now : ℤ) (rand : String) :
    ((commit st user method tendered taxRate newId now rand).1.isSome = true ↔
      (st.cart ≠ [] ∧ user.isSome = true ∧
        canProcessPayment method tendered (getTotal st.cart taxRate) = true)) ∧
    ((commit st user method tendered taxRate newId now rand).1.isSome = true ∨
      commit st user method tendered taxRate newId now rand = (none, st)) ∧
    (∀ amount total : ℚ,
      (canProcessPayment .cash (some amount) total = true ↔ total ≤ amount)) ∧
    (∀ total : ℚ, canProcessPayment .cash none total = false) ∧
    (∀ tendered' total, canProcessPayment .card tendered' total = true) ∧
    (∀ tendered' total, canProcessPayment .digitalWallet tendered' total = true) := by
  refine ⟨?_, ?_, ?_, ?_, ?_, ?_⟩
  · constructor
    · intro h
      cases hc : commit st user method tendered taxRate newId now rand with
      | mk fst snd =>
          cases fst with
          | none => rw [hc] at h; simp at h
          | some tx =>
              obtain ⟨hne, hcan, u, hu, -⟩ :=
                commit_inversion st user method tendered taxRate newId now rand
                  tx snd hc
              exact ⟨hne, by rw [hu]; rfl, hcan⟩
    · rintro ⟨hne, hsome, hcan⟩
      cases user with
      | none => simp at hsome
      | some u =>
          unfold commit
          rw [if_neg (by simpa using hne), if_pos hcan]
          rfl
  · unfold commit
    split
    · exact Or.inr rfl
    · split
      · split
        · exact Or.inr rfl
        · exact Or.inl rfl
      · exact Or.inr rfl
  · intro amount total
    simp [canProcessPayment]
  · intro total
    rfl
  · intro tendered' total
    rfl
  · intro tendered' total
    rfl

theorem commit_guard_witness :
    ((commit { cart := [], transactions := [] } (some demoUser) .cash (some 10)
        (8 / 100) "tx-9" 5 "ZZ99").1.isSome = true ↔
      (([] : List CartItem) ≠ [] ∧ (some demoUser).isSome = true ∧
        canProcessPayment .cash (some 10) (getTotal [] (8 / 100)) = true)) ∧
    ((commit { cart := [], transactions := [] } (some demoUser) .cash (some 10)
        (8 / 100) "tx-9" 5 "ZZ99").1.isSome = true ∨
      commit { cart := [], transactions := [] } (some demoUser) .cash (some 10)
        (8 / 100) "tx-9" 5 "ZZ99" = (none, { cart := [], transactions := [] })) ∧
    (∀ amount total : ℚ,
      (canProcessPayment .cash (some amount) total = true ↔ total ≤ amount)) ∧
    (∀ total : ℚ, canProcessPayment .cash none total = false) ∧
    (∀ tendered' total, canProcessPayment .card tendered' total = true) ∧
    (∀ tendered' total, canProcessPayment .digitalWallet tendered' total = true) :=
  commit_guard_characterization { cart := [], transactions := [] }
    (some demoUser) .cash (some 10) (8 / 100) "tx-9" 5 "ZZ99"

/-- C10: `getTransactionsByDate` returns exactly the stored transactions
whose timestamp lies in `[startDate, endDate]` (both endpoints inclusive),
as a sublist of the stored log (so the stored newest-first order is kept);
the multiplicity of every transaction is preserved inside the range and
zero outside it.  The getter reads the store and performs no update. -/
theorem getTransactionsByDate_characterization (transactions : List Transaction)
    (startDate endDate : ℤ) :
    (getTransactionsByDate transactions startDate endDate).Sublist transactions ∧
    (∀ tx, tx ∈ getTransactionsByDate transactions startDate endDate ↔
      (tx ∈ transactions ∧ startDate ≤ tx.timestamp ∧ tx.timestamp ≤ endDate)) ∧
    (∀ tx, (getTransactionsByDate transactions startDate endDate).count tx =
      if startDate ≤ tx.timestamp ∧ tx.timestamp ≤ endDate then
        transactions.count tx
      else 0) := by
  refine ⟨List.filter_sublist transactions, ?_, ?_⟩
  · intro tx
    simp [getTransactionsByDate, List.mem_filter]
  · intro tx
    by_cases h : startDate ≤ tx.timestamp ∧ tx.timestamp ≤ endDate
    · rw [if_pos h, getTransactionsByDate]
      exact List.count_filter
        (by simp only [Bool.and_eq_true, decide_eq_true_eq]; exact h)
    · have hc : ¬((decide (startDate ≤ tx.timestamp) &&
          decide (tx.timestamp ≤ endDate)) = true) := by
        simp only [Bool.and_eq_true, decide_eq_true_eq]
        exact fun hab => h hab
      rw [if_neg h, getTransactionsByDate, List.count_eq_zero]
      intro hmem
      rw [List.mem_filter] at hmem
      exact hc hmem.2

/-- The cart line exhibiting that `getTotal` applies no final rounding:
a sub-cent unit price of 0.005. -/
def subCentItem : CartItem :=
  { id := "cart-3", productId := "p-3", name := "Penny Widget",
    price := 1 / 200, quantity := 1, image := none }

/-- C6 counterexample: on a cart holding one line of unit price 0.005 at
tax rate 0, the code's `getTotal` returns 0.005 while
`round2(getSubtotal() + getTax(0))` would be 0.01, so the claimed equation
`getTotal(r) = round2(getSubtotal() + getTax(r))` fails. -/
theorem getTotal_unrounded_counterexample :
    getTotal [subCentItem] 0 ≠
      round2 (getSubtotal [subCentItem] + getTax [subCentItem] 0) := by
  norm_num [getTotal, getTax, getSubtotal, calculateTax, round2, jsRound,
    subCentItem]

/-- C6 (amended): `getTax(r)` is `round2(getSubtotal() * r)` and
`getTotal(r)` is `getSubtotal() + getTax(r)` with no further rounding;
the 3.50 x 2 cart at tax rate 0.08 yields subtotal 7.00, tax 0.56 and
total 7.56. -/
theorem getTax_getTotal_formulas (items : List CartItem) (taxRate : ℚ) :
    getTax items taxRate = round2 (getSubtotal items * taxRate) ∧
    getTotal items taxRate = getSubtotal items + getTax items taxRate ∧
    getSubtotal [demoItem] = 7 ∧
    getTax [demoItem] (8 / 100) = 56 / 100 ∧
    getTotal [demoItem] (8 / 100) = 756 / 100 := by
  refine ⟨rfl, rfl, demo_subtotal, ?_, ?_⟩
  · rw [demo_tax]; norm_num
  · rw [demo_total]; norm_num

/-- C7 counterexample: the modal's change computation is
`parseFloat(amountPaid) - total` with no rounding, so for a total of 7.554
and a tender of 10.00 it returns 2.446, not the claimed
`round2(tenderedAmount - total) = 2.45`. -/
theorem change_unrounded_counterexample :
    changeOf 10 (3777 / 500) ≠ round2 (10 - 3777 / 500) := by
  norm_num [changeOf, round2, jsRound]

/-- C7 (amended): the computed cash change is exactly
`tenderedAmount - total` (no rounding); the display clamps it at 0 and the
insufficient-funds message reports its absolute value; with total 7.56 a
tender of 10.00 gives change 2.44 and authorization, a tender of 5.00 is
refused with shortfall 2.56. -/
theorem cash_change_computation (tendered total : ℚ) :
    changeOf tendered total = tendered - total ∧
    displayedChange tendered total = max 0 (tendered - total) ∧
    shortfallShown tendered total = |tendered - total| ∧
    changeOf 10 (756 / 100) = 244 / 100 ∧
    canProcessPayment .cash (some 10) (756 / 100) = true ∧
    canProcessPayment .cash (some 5) (756 / 100) = false ∧
    changeOf 5 (756 / 100) = -(256 / 100) ∧
    displayedChange 5 (756 / 100) = 0 ∧
    shortfallShown 5 (756 / 100) = 256 / 100 := by
  refine ⟨rfl, rfl, rfl, by norm_num [changeOf], ?_, ?_, by norm_num [changeOf],
    ?_, ?_⟩
  · simp only [canProcessPayment, decide_eq_true_eq]
    norm_num
  · simp only [canProcessPayment, decide_eq_false_iff_not]
    norm_num
  · rw [displayedChange, changeOf, max_eq_left (by norm_num)]
  · rw [shortfallShown, changeOf, abs_of_neg (by norm_num)]
    norm_num

/-- JS `String.prototype.split('.')` on the character list: splits at every
dot, keeping empty segments, so `"1.2."` becomes `["1", "2", ""]`. -/
def jsSplitDot : List Char → List (List Char)
  | [] => [[]]
  | c :: rest =>
      let tailSplit := jsSplitDot rest
      if c = '.' then [] :: tailSplit
      else
        match tailSplit with
        | [] => [[c]]
        | seg :: segs => (c :: seg) :: segs

/-- `handleKeypadInput` from `PaymentModal`: `clear` empties the field,
`backspace` is `prev.slice(0, -1)`, and any other keystroke is appended
unless the appended text has a first fractional segment longer than two
characters (`newAmount.includes('.') && newAmount.split('.')[1]?.length > 2`),
in which case the previous text is kept. -/
def handleKeypadInput (prev value : String) : String :=
  if value == "clear" then ""
  else if value == "backspace" then ⟨prev.data.dropLast⟩
  else
    let newAmount := prev ++ value
    if newAmount.data.contains '.' &&
        (match (jsSplitDot newAmount.data).get? 1 with
         | some segment => decide (segment.length > 2)
         | none => false) then
      prev
    else newAmount

/-- C8: the keypad handler accepts a second decimal point — pressing `.`
on `"1.2"` yields `"1.2."` (two dots in the field) and a digit can then
still be appended — while the two-fractional-digit cap does hold for
well-formed input (`"1.23"` plus a digit is refused unchanged). -/
theorem keypad_second_decimal_point_accepted :
    handleKeypadInput "1.2" "." = "1.2." ∧
    (handleKeypadInput "1.2" ".").data.count '.' = 2 ∧
    handleKeypadInput "1.2." "3" = "1.2.3" ∧
    handleKeypadInput "1.23" "4" = "1.23" := by
  refine ⟨?_, ?_, ?_, ?_⟩ <;> decide

/-- A timestamp value as it exists in the rehydrated store: either a
proper instant (epoch milliseconds, a `Date`) or a raw string left over
from JSON parsing. -/
inductive TimeVal where
  | date (ms : ℤ)
  | str (s : String)
deriving DecidableEq, Repr

/-- `JSON.stringify` renders a `Date` as an ISO-8601 instant string; the
rendering of the epoch-millisecond value is abstracted as its (injective)
decimal digit string. -/
def isoStringOfMs (ms : ℤ) : String := toString ms

/-- The shape of one transaction inside the `transaction-storage` record:
every field survives JSON serialization unchanged except `timestamp`,
which becomes a string. -/
structure StoredTransaction where
  id : String
  items : List CartItem
  subtotal : ℚ
  tax : ℚ
  total : ℚ
  paymentMethod : PaymentMethod
  amountPaid : ℚ
  change : ℚ
  cashierId : String
  cashierName : String
  timestamp : String
  receiptNumber : String
deriving DecidableEq, Repr

/-- A transaction as it exists in memory after rehydration, where the
timestamp may be either a restored instant or a leftover raw string. -/
structure LoadedTransaction where
  id : String
  items : List CartItem
  subtotal : ℚ
  tax : ℚ
  total : ℚ
  paymentMethod : PaymentMethod
  amountPaid : ℚ
  change : ℚ
  cashierId : String
  cashierName : String
  timestamp : TimeVal
  receiptNumber : String
deriving DecidableEq, Repr

/-- Serialization of one transaction into `transaction-storage`. -/
def serializeTransaction (tx : Transaction) : StoredTransaction :=
  { id := tx.id, items := tx.items, subtotal := tx.subtotal, tax := tx.tax,
    total := tx.total, paymentMethod := tx.paymentMethod,
    amountPaid := tx.amountPaid, change := tx.change,
    cashierId := tx.cashierId, cashierName := tx.cashierName,
    timestamp := isoStringOfMs tx.timestamp,
    receiptNumber := tx.receiptNumber }

/-- Rehydration in `src/stores/transaction.ts`: the persist configuration
is `{ name: 'transaction-storage' }` with no `onRehydrateStorage` callback
(unlike `src/stores/auth.ts`), so the JSON-parsed record is used as-is and
`timestamp` remains the raw string. -/
def rehydrateTransaction (stored : StoredTransaction) : LoadedTransaction :=
  { id := stored.id, items := stored.items, subtotal := stored.subtotal,
    tax := stored.tax, total := stored.total,
    paymentMethod := stored.paymentMethod, amountPaid := stored.amountPaid,
    change := stored.change, cashierId := stored.cashierId,
    cashierName := stored.cashierName,
    timestamp := TimeVal.str stored.timestamp,
    receiptNumber := stored.receiptNumber }

/-- Save-then-load of the whole transaction log. -/
def roundTripLog (log : List Transaction) : List LoadedTransaction :=
  (log.map serializeTransaction).map rehydrateTransaction

/-- Modelled from the spec: the in-memory value C4 expects after a round
trip — every field identical and `timestamp` restored as a proper instant. -/
def expectedLoad (tx : Transaction) : LoadedTransaction :=
  { id := tx.id, items := tx.items, subtotal := tx.subtotal, tax := tx.tax,
    total := tx.total, paymentMethod := tx.paymentMethod,
    amountPaid := tx.amountPaid, change := tx.change,
    cashierId := tx.cashierId, cashierName := tx.cashierName,
    timestamp := TimeVal.date tx.timestamp,
    receiptNumber := tx.receiptNumber }

/-- C4: on the concrete one-transaction log, the persist round trip leaves
`timestamp` as the raw serialized string instead of restoring an instant,
so the reloaded log differs from the expected one. -/
theorem roundtrip_timestamp_stays_string :
    (roundTripLog [demoTx]).map (·.timestamp) =
      [TimeVal.str "1700000000123"] ∧
    (expectedLoad demoTx).timestamp = TimeVal.date 1700000000123 ∧
    roundTripLog [demoTx] ≠ [expectedLoad demoTx] := by
  refine ⟨rfl, rfl, ?_⟩
  intro h
  have h' := congrArg (fun l => l.map (·.timestamp)) h
  simp only [roundTripLog, List.map_map, List.map_cons, List.map_nil,
    Function.comp, serializeTransaction, rehydrateTransaction, expectedLoad,
    demoTx] at h'
  exact absurd h' (by decide)

/-- The transaction a cash commit of the demo cart stores, given the
generated id, the clock reading and the random receipt component. -/
def demoTxAt (newId : String) (now : ℤ) (rand : String) : Transaction :=
  { id := newId, items := [demoItem], subtotal := 7, tax := 14 / 25,
    total := 189 / 25, paymentMethod := .cash, amountPaid := 10,
    change := 61 / 25, cashierId := "2", cashierName := "Cashier User",
    timestamp := now, receiptNumber := generateReceiptNumber now rand }

theorem commit_demoCart (newId : String) (now : ℤ) (rand : String)
    (log : List Transaction) :
    commit { cart := [demoItem], transactions := log } (some demoUser) .cash
        (some 10) (8 / 100) newId now rand =
      (some (demoTxAt newId now rand),
        { cart := [], transactions := demoTxAt newId now rand :: log }) := by
  unfold commit
  simp only [demo_total]
  rw [if_neg (by decide), if_pos (by simp [canProcessPayment]; norm_num)]
  simp only [addTransaction, List.head?, clearCart, changeOf, demoTxAt,
    demoUser]
  rw [Prod.mk.injEq]
  constructor
  · rw [Option.some.injEq, Transaction.mk.injEq]
    exact ⟨rfl, rfl, demo_subtotal, demo_tax, rfl, rfl, rfl, by norm_num, rfl,
      rfl, rfl, rfl⟩
  · rw [PosState.mk.injEq]
    refine ⟨rfl, ?_⟩
    rw [List.cons.injEq]
    refine ⟨?_, rfl⟩
    rw [Transaction.mk.injEq]
    exact ⟨rfl, rfl, demo_subtotal, demo_tax, rfl, rfl, rfl, by norm_num, rfl,
      rfl, rfl, rfl⟩

/-- First commit of the demo cart at clock reading 1700000000123 with
random receipt component "QQ77". -/
def collisionFirst : Option Transaction × PosState :=
  commit { cart := [demoItem], transactions := [] } (some demoUser) .cash
    (some 10) (8 / 100) "id-1" 1700000000123 "QQ77"

/-- Re-fill the cart after the first commit (add the product, then set the
quantity back to 2) and commit again within the same millisecond, with the
random generator returning the same 4-character draw. -/
def collisionSecond : Option Transaction × PosState :=
  commit
    (applyOpState (applyOpState collisionFirst.2 (.add demoProduct "cart-1"))
      (.update "p-1" 2))
    (some demoUser) .cash (some 10) (8 / 100) "id-2" 1700000000123 "QQ77"

/-- C9 counterexample: two distinct transactions (ids "id-2" and "id-1")
committed in the same millisecond end up with the identical receipt number
"RCP-000123-QQ77" when the random component repeats, so receipt numbers
are not unconditionally distinct within a millisecond. -/
theorem same_millisecond_receipt_collision :
    (collisionSecond.2.transactions.map
      (fun tx => (tx.timestamp, tx.receiptNumber))) =
      [(1700000000123, "RCP-000123-QQ77"), (1700000000123, "RCP-000123-QQ77")] ∧
    collisionSecond.2.transactions.map (·.id) = ["id-2", "id-1"] ∧
    ¬(collisionSecond.2.transactions.map (·.receiptNumber)).Nodup := by
  have h1 : collisionFirst =
      (some (demoTxAt "id-1" 1700000000123 "QQ77"),
        { cart := [], transactions := [demoTxAt "id-1" 1700000000123 "QQ77"] }) :=
    commit_demoCart "id-1" 1700000000123 "QQ77" []
  have h2 : collisionSecond =
      (some (demoTxAt "id-2" 1700000000123 "QQ77"),
        { cart := [],
          transactions := [demoTxAt "id-2" 1700000000123 "QQ77",
            demoTxAt "id-1" 1700000000123 "QQ77"] }) := by
    unfold collisionSecond
    rw [congrArg Prod.snd h1]
    exact commit_demoCart "id-2" 1700000000123 "QQ77"
      [demoTxAt "id-1" 1700000000123 "QQ77"]
  rw [h2]
  refine ⟨?_, ?_, ?_⟩ <;> decide

/-- C9 (amended): two transactions committed within the same millisecond
receive distinct receipt numbers whenever their 4-character random
components differ — the timestamp part alone never separates them. -/
theorem receipt_distinct_for_distinct_random (now : ℤ) (rand₁ rand₂ : String)
    (h : rand₁ ≠ rand₂) :
    generateReceiptNumber now rand₁ ≠ generateReceiptNumber now rand₂ := by
  intro heq
  apply h
  have hdata := congrArg String.data heq
  simp only [generateReceiptNumber, String.data_append] at hdata
  have hlist := List.append_cancel_left hdata
  cases rand₁
  cases rand₂
  exact congrArg String.mk hlist

theorem receipt_distinct_witness :
    generateReceiptNumber 1700000000123 "AB12" ≠
      generateReceiptNumber 1700000000123 "CD34" :=
  receipt_distinct_for_distinct_random 1700000000123 "AB12" "CD34" (by decide)

end POS
